import Mathlib

/-!
Verification of the sumologic search-job client (`search.go`) against its
natural-language specification.  The Go source is embedded shallowly: JSON
documents are an inductive type, `encoding/json` field decoding is modelled
per struct following Go's documented semantics (unknown fields ignored,
ASCII-case-insensitive tag matching, `null` leaves the current value in
place for non-pointer targets), HTTP transport is a function argument from
the built request to the outcome, and the `github.com/juju/errors`
annotation helpers are modelled with their documented behaviour that
annotating a `nil` error yields `nil`.
-/

namespace Sumologic

/-- A JSON document.  Numbers are modelled as integers: every numeric field
of the structs in `search.go` is integral (`int`/`uint`), and all claims use
integral values only. -/
inductive Json where
  | null
  | bool (b : Bool)
  | num (n : Int)
  | str (s : String)
  | arr (elems : List Json)
  | obj (fields : List (String × Json))

/-- Error values a call can produce.  `clientAuthenticationError` is the
sentinel `ErrClientAuthenticationError`; `annotated` is a
`github.com/juju/errors` annotation wrapping a non-nil cause. -/
inductive GoError where
  | clientAuthenticationError
  | transportError (msg : String)
  | readError (msg : String)
  | jsonSyntaxError (msg : String)
  | unmarshalTypeError (msg : String)
  | urlParseError (msg : String)
  | annotated (msg : String) (cause : GoError)

/-- The sentinel returned on HTTP 401 (declared in the client construction
file of the repository). -/
def ErrClientAuthenticationError : GoError := GoError.clientAuthenticationError

/-- Model of `errors.Annotate` from `github.com/juju/errors`: wraps a
non-nil error with a message; by its documented contract, annotating `nil`
returns `nil`. -/
def Annotate (other : Option GoError) (message : String) : Option GoError :=
  match other with
  | none => none
  | some e => some (GoError.annotated message e)

/-- Model of `errors.Annotatef` from `github.com/juju/errors`, with the
format string already rendered by the caller.  Like `Annotate`, it returns
`nil` when given a `nil` error. -/
def Annotatef (other : Option GoError) (message : String) : Option GoError :=
  match other with
  | none => none
  | some e => some (GoError.annotated message e)

/-- An ASCII control character (byte below 0x20, or DEL 0x7f): `net/url`
rejects URLs containing these. -/
def isCtlChar (c : Char) : Bool :=
  c.toNat < 0x20 || c.toNat == 0x7f

/-- A hexadecimal digit character. -/
def isHexDigitChar (c : Char) : Bool :=
  c.isDigit || (0x61 ≤ c.toNat && c.toNat ≤ 0x66) || (0x41 ≤ c.toNat && c.toNat ≤ 0x46)

/-- Scanner for percent-escapes: the first argument counts how many hex
digits are still owed to an open `%` escape. -/
def validEscapesAux : Nat → List Char → Bool
  | 0, [] => true
  | 0, c :: rest => if c = '%' then validEscapesAux 2 rest else validEscapesAux 0 rest
  | _ + 1, [] => false
  | k + 1, c :: rest => isHexDigitChar c && validEscapesAux k rest

/-- Checks that every `%` in the character list begins a valid two-hex-digit
escape, as `net/url` requires of the strings it parses. -/
def validEscapes (l : List Char) : Bool :=
  validEscapesAux 0 l

/-- Drops the fragment part (everything from the first `#` on), as
`url.Parse` strips the fragment before parsing the rest. -/
def stripFragment (cs : List Char) : List Char :=
  cs.takeWhile (fun c => c != '#')

/-- Splits a fragment-free URL string at the first `?` into path part and
raw query part. -/
def splitQuery : List Char → List Char × List Char
  | [] => ([], [])
  | c :: rest =>
    if c = '?' then ([], rest)
    else
      let pq := splitQuery rest
      (c :: pq.1, pq.2)

/-- A parsed URL, reduced to the parts `search.go` uses: the path and the
raw query.  Scheme and host live unchanged in the configured base endpoint
and are not modelled.  Percent-escapes in the path are kept verbatim (the
decoded-path/raw-path distinction of `net/url` plays no role in the
claims). -/
structure URL where
  path : String
  rawQuery : String

/-- Model of `url.Parse` on the relative URL strings built by `search.go`:
it fails exactly on ASCII control characters and malformed percent-escapes,
otherwise splits off the fragment and the query. -/
def urlParse (rawurl : String) : Except String URL :=
  if rawurl.data.any isCtlChar then
    .error "net/url: invalid control character in URL"
  else if !(validEscapes (stripFragment rawurl.data)) then
    .error "invalid URL escape"
  else
    let noFrag := stripFragment rawurl.data
    let pq := splitQuery noFrag
    .ok { path := ⟨pq.1⟩, rawQuery := ⟨pq.2⟩ }

/-- The base path up to and including its last `/`, used by RFC 3986
relative-reference merging. -/
def dirPrefix (cs : List Char) : List Char :=
  (cs.reverse.dropWhile (fun c => c != '/')).reverse

/-- Model of `(*url.URL).ResolveReference` for the relative references
built by `search.go`: a rooted reference path replaces the base path, an
unrooted one is merged onto the base path's directory; the query is taken
from the reference.  (Dot-segment removal is not modelled: no path built
here contains dot segments.) -/
def resolveReference (base ref : URL) : URL :=
  if ref.path.data.head? = some '/' then
    { path := ref.path, rawQuery := ref.rawQuery }
  else
    { path := ⟨dirPrefix base.path.data ++ ref.path.data⟩, rawQuery := ref.rawQuery }

/-- An HTTP cookie, reduced to the name/value pair that `AddCookie` sends
and `resp.Cookies()` yields. -/
structure Cookie where
  name : String
  value : String

/-- An outgoing HTTP request as `search.go` builds it: method, resolved
URL, headers, the cookies added with `AddCookie`, and an optional JSON
body. -/
structure Request where
  method : String
  url : URL
  headers : List (String × String)
  cookies : List Cookie
  body : Option Json

/-- Model of `(*http.Request).AddCookie`: appends the cookie to the
request's cookie set. -/
def addCookie (r : Request) (c : Cookie) : Request :=
  { r with cookies := r.cookies ++ [c] }

/-- What `ioutil.ReadAll(resp.Body)` produced: `data` is the JSON parse of
the bytes that were read (`none` when those bytes are not a JSON document),
and `readErr` is the read error, if any.  On a failed read the bytes read
so far are still returned alongside the error. -/
structure BodyRead where
  data : Option Json
  readErr : Option GoError

/-- An HTTP response as observed by `search.go`: status code, the result of
reading the body, and the cookies carried by the response's Set-Cookie
headers (what `resp.Cookies()` returns). -/
structure Response where
  statusCode : Nat
  bodyRead : BodyRead
  cookies : List Cookie

/-- Outcome of `client.Do(req)`: a transport-level failure or a response. -/
inductive DoOutcome where
  | fail (e : GoError)
  | resp (r : Response)

/-- Modelled from the spec: the `Client` value built by `NewClient` (its
defining file is not part of the sources given) carries the configured base
endpoint URL and the caller-supplied pre-encoded Basic credential, exactly
the two fields `search.go` reads (`c.EndpointURL`, `c.AuthToken`). -/
structure Client where
  EndpointURL : URL
  AuthToken : String

/-- StartSearchRequest is the data needed to start a search
(`search.go` lines 30-35). -/
structure StartSearchRequest where
  Query : String
  From : String
  To : String
  TimeZone : String

/-- SearchJob represents a search job in Sumologic, returned after starting
a search (`search.go` lines 38-43). -/
structure SearchJob where
  Status : Int
  ID : String
  Code : String
  Message : String

/-- The zero value of `SearchJob`. -/
def searchJobZero : SearchJob :=
  { Status := 0, ID := "", Code := "", Message := "" }

/-- State constant `NotStarted` (`search.go` line 47). -/
def NotStarted : String := "NOT STARTED"

/-- State constant `GatheringResults` (`search.go` line 48). -/
def GatheringResults : String := "GATHERING RESULTS"

/-- State constant `ForcePaused` (`search.go` line 49). -/
def ForcePaused : String := "FORCED PAUSED"

/-- State constant `DoneGatheringResults` (`search.go` line 50). -/
def DoneGatheringResults : String := "DONE GATHERING RESULTS"

/-- State constant `Canceled` (`search.go` line 51). -/
def Canceled : String := "CANCELED"

/-- HistogramBucket (`search.go` lines 103-107); all three fields are Go
`int`. -/
structure HistogramBucket where
  Length : Int
  Count : Int
  StartTimeStamp : Int

/-- The zero value of `HistogramBucket`. -/
def histogramBucketZero : HistogramBucket :=
  { Length := 0, Count := 0, StartTimeStamp := 0 }

/-- SearchJobStatusResponse (`search.go` lines 110-117).  `MessageCount`
and `RecordCount` are Go `uint` (modelled as `Nat`); `HistgramBuckets`
(name kept as misspelled in the source) is `[]*HistogramBucket`, a list of
possibly-nil pointers. -/
structure SearchJobStatusResponse where
  State : String
  MessageCount : Nat
  HistgramBuckets : List (Option HistogramBucket)
  RecordCount : Nat
  PendingWarnings : List String
  PendingErrors : List String

/-- The zero value of `SearchJobStatusResponse` (Go nil slices and empty
slices are both modelled as `[]`). -/
def statusZero : SearchJobStatusResponse :=
  { State := "", MessageCount := 0, HistgramBuckets := [], RecordCount := 0,
    PendingWarnings := [], PendingErrors := [] }

/-- SearchJobResultsRequest (`search.go` lines 154-158). -/
structure SearchJobResultsRequest where
  ID : String
  Offset : Int
  Limit : Int

/-- SearchJobResultField (`search.go` lines 161-165). -/
structure SearchJobResultField where
  Name : String
  FieldType : String
  KeyField : Bool

/-- The zero value of `SearchJobResultField`. -/
def resultFieldZero : SearchJobResultField :=
  { Name := "", FieldType := "", KeyField := false }

/-- SearchJobResultMessage (`search.go` lines 168-174): its `Map` field is
a `map[string]interface{}`, modelled as an association list of arbitrary
JSON values. -/
structure SearchJobResultMessage where
  Map : List (String × Json)

/-- SearchJobResult (`search.go` lines 177-180). -/
structure SearchJobResult where
  Fields : List SearchJobResultField
  Messages : List SearchJobResultMessage

/-- ASCII lower-casing of a string (Go's struct-field tag matching is
case-insensitive; for the ASCII tags of these structs Go's fold coincides
with ASCII lower-casing). -/
def asciiLower (s : String) : String :=
  ⟨s.data.map Char.toLower⟩

/-- Whether a JSON object key matches a struct-field tag under
`encoding/json`'s matching rule (exact match preferred, case-insensitive
match accepted; the tags of these structs are pairwise distinct even
case-insensitively, so a single case-insensitive comparison is
equivalent). -/
def keyFold (key tag : String) : Bool :=
  asciiLower key == asciiLower tag

/-- Decoding a JSON value into a Go `string` field holding `cur`:
a JSON string replaces it, JSON `null` has no effect, anything else is an
unmarshalling type error. -/
def decodeGoString : Json → String → Except GoError String
  | .str s, _ => .ok s
  | .null, cur => .ok cur
  | _, _ => .error (.unmarshalTypeError "cannot unmarshal JSON value into string")

/-- Decoding a JSON value into a Go `int` field. -/
def decodeGoInt : Json → Int → Except GoError Int
  | .num n, _ => .ok n
  | .null, cur => .ok cur
  | _, _ => .error (.unmarshalTypeError "cannot unmarshal JSON value into int")

/-- Decoding a JSON value into a Go `uint` field: a negative number is an
unmarshalling type error. -/
def decodeGoUint : Json → Nat → Except GoError Nat
  | .num n, _ =>
    if n < 0 then .error (.unmarshalTypeError "cannot unmarshal negative number into uint")
    else .ok n.toNat
  | .null, cur => .ok cur
  | _, _ => .error (.unmarshalTypeError "cannot unmarshal JSON value into uint")

/-- Decoding a JSON value into a Go `bool` field. -/
def decodeGoBool : Json → Bool → Except GoError Bool
  | .bool b, _ => .ok b
  | .null, cur => .ok cur
  | _, _ => .error (.unmarshalTypeError "cannot unmarshal JSON value into bool")

/-- Decoding one element of a `[]string`: the element starts from the zero
value `""`, so a `null` element stays `""`. -/
def decodeGoStringElem : Json → Except GoError String
  | .str s => .ok s
  | .null => .ok ""
  | _ => .error (.unmarshalTypeError "cannot unmarshal JSON value into string")

/-- Decoding the elements of a JSON array into `[]string`, element by
element as `encoding/json` iterates. -/
def decodeStringElems : List Json → Except GoError (List String)
  | [] => .ok []
  | j :: rest =>
    match decodeGoStringElem j with
    | .error e => .error e
    | .ok s =>
      match decodeStringElems rest with
      | .error e => .error e
      | .ok l => .ok (s :: l)

/-- Decoding a JSON value into a `[]string` field. -/
def decodeStringSlice : Json → List String → Except GoError (List String)
  | .arr es, _ => decodeStringElems es
  | .null, cur => .ok cur
  | _, _ => .error (.unmarshalTypeError "cannot unmarshal JSON value into string slice")

/-- Setting one decoded JSON object field on a `HistogramBucket`
accumulator; unknown keys are ignored. -/
def bucketSetField (acc : HistogramBucket) (k : String) (v : Json) :
    Except GoError HistogramBucket :=
  if keyFold k "length" then
    (decodeGoInt v acc.Length).map fun n => { acc with Length := n }
  else if keyFold k "count" then
    (decodeGoInt v acc.Count).map fun n => { acc with Count := n }
  else if keyFold k "startTimeStamp" then
    (decodeGoInt v acc.StartTimeStamp).map fun n => { acc with StartTimeStamp := n }
  else
    .ok acc

/-- Folding the fields of a JSON object into a `HistogramBucket` in order
(later duplicates overwrite earlier ones, as `encoding/json` does). -/
def unmarshalBucketFields : HistogramBucket → List (String × Json) → Except GoError HistogramBucket
  | acc, [] => .ok acc
  | acc, (k, v) :: rest =>
    match bucketSetField acc k v with
    | .error e => .error e
    | .ok a => unmarshalBucketFields a rest

/-- Decoding one element of `[]*HistogramBucket`: a JSON `null` element is
a nil pointer. -/
def decodeBucketElem : Json → Except GoError (Option HistogramBucket)
  | .null => .ok none
  | .obj fs => (unmarshalBucketFields histogramBucketZero fs).map some
  | _ => .error (.unmarshalTypeError "cannot unmarshal JSON value into HistogramBucket")

/-- Decoding the elements of a JSON array into `[]*HistogramBucket`. -/
def decodeBucketElems : List Json → Except GoError (List (Option HistogramBucket))
  | [] => .ok []
  | j :: rest =>
    match decodeBucketElem j with
    | .error e => .error e
    | .ok b =>
      match decodeBucketElems rest with
      | .error e => .error e
      | .ok l => .ok (b :: l)

/-- Decoding a JSON value into a `[]*HistogramBucket` field. -/
def decodeBucketSlice : Json → List (Option HistogramBucket) →
    Except GoError (List (Option HistogramBucket))
  | .arr es, _ => decodeBucketElems es
  | .null, cur => .ok cur
  | _, _ => .error (.unmarshalTypeError "cannot unmarshal JSON value into HistogramBucket slice")

/-- Setting one decoded JSON object field on a `SearchJobStatusResponse`
accumulator; keys matching no tag are ignored. -/
def statusSetField (acc : SearchJobStatusResponse) (k : String) (v : Json) :
    Except GoError SearchJobStatusResponse :=
  if keyFold k "state" then
    (decodeGoString v acc.State).map fun s => { acc with State := s }
  else if keyFold k "messageCount" then
    (decodeGoUint v acc.MessageCount).map fun n => { acc with MessageCount := n }
  else if keyFold k "histogramBuckets" then
    (decodeBucketSlice v acc.HistgramBuckets).map fun l => { acc with HistgramBuckets := l }
  else if keyFold k "recordCount" then
    (decodeGoUint v acc.RecordCount).map fun n => { acc with RecordCount := n }
  else if keyFold k "pendingWarnings" then
    (decodeStringSlice v acc.PendingWarnings).map fun l => { acc with PendingWarnings := l }
  else if keyFold k "pendingErrors" then
    (decodeStringSlice v acc.PendingErrors).map fun l => { acc with PendingErrors := l }
  else
    .ok acc

/-- Whether a JSON object key matches some tag of
`SearchJobStatusResponse`. -/
def knownStatusKey (k : String) : Bool :=
  keyFold k "state" || keyFold k "messageCount" || keyFold k "histogramBuckets" ||
    keyFold k "recordCount" || keyFold k "pendingWarnings" || keyFold k "pendingErrors"

/-- Folding the fields of a JSON object into a `SearchJobStatusResponse` in
order. -/
def unmarshalStatusFields : SearchJobStatusResponse → List (String × Json) →
    Except GoError SearchJobStatusResponse
  | acc, [] => .ok acc
  | acc, (k, v) :: rest =>
    match statusSetField acc k v with
    | .error e => .error e
    | .ok a => unmarshalStatusFields a rest

/-- Model of `json.Unmarshal(responseBody, &jobStatus)` where `jobStatus`
is a `*SearchJobStatusResponse` (so the argument is a double pointer, as in
`GetSearchJobStatus`): bytes that are not JSON are a syntax error, JSON
`null` sets the pointer itself to nil, an object decodes field-wise, and
any other document is a type error. -/
def unmarshalStatusPtr : Option Json → Except GoError (Option SearchJobStatusResponse)
  | none => .error (.jsonSyntaxError "invalid JSON input")
  | some .null => .ok none
  | some (.obj fs) => (unmarshalStatusFields statusZero fs).map some
  | some _ => .error (.unmarshalTypeError "cannot unmarshal JSON value into SearchJobStatusResponse")

/-- Setting one decoded JSON object field on a `SearchJob` accumulator. -/
def searchJobSetField (acc : SearchJob) (k : String) (v : Json) :
    Except GoError SearchJob :=
  if keyFold k "status" then
    (decodeGoInt v acc.Status).map fun n => { acc with Status := n }
  else if keyFold k "id" then
    (decodeGoString v acc.ID).map fun s => { acc with ID := s }
  else if keyFold k "code" then
    (decodeGoString v acc.Code).map fun s => { acc with Code := s }
  else if keyFold k "message" then
    (decodeGoString v acc.Message).map fun s => { acc with Message := s }
  else
    .ok acc

/-- Folding the fields of a JSON object into a `SearchJob` in order. -/
def unmarshalSearchJobFields : SearchJob → List (String × Json) → Except GoError SearchJob
  | acc, [] => .ok acc
  | acc, (k, v) :: rest =>
    match searchJobSetField acc k v with
    | .error e => .error e
    | .ok a => unmarshalSearchJobFields a rest

/-- Model of `json.Unmarshal(responseBody, &sj)` where `sj` is a
`*SearchJob` (double-pointer argument, as on the 202 path of
`StartSearch`): JSON `null` sets the pointer to nil. -/
def unmarshalSearchJobPtr : Option Json → Except GoError (Option SearchJob)
  | none => .error (.jsonSyntaxError "invalid JSON input")
  | some .null => .ok none
  | some (.obj fs) => (unmarshalSearchJobFields searchJobZero fs).map some
  | some _ => .error (.unmarshalTypeError "cannot unmarshal JSON value into SearchJob")

/-- Model of `json.Unmarshal(responseBody, &sj)` where `sj` is a
`SearchJob` value (as on the 400 path of `StartSearch`): JSON `null` has no
effect and leaves the zero value. -/
def unmarshalSearchJobVal : Option Json → Except GoError SearchJob
  | none => .error (.jsonSyntaxError "invalid JSON input")
  | some .null => .ok searchJobZero
  | some (.obj fs) => unmarshalSearchJobFields searchJobZero fs
  | some _ => .error (.unmarshalTypeError "cannot unmarshal JSON value into SearchJob")

/-- Setting one decoded JSON object field on a `SearchJobResultField`
accumulator. -/
def resultFieldSetField (acc : SearchJobResultField) (k : String) (v : Json) :
    Except GoError SearchJobResultField :=
  if keyFold k "name" then
    (decodeGoString v acc.Name).map fun s => { acc with Name := s }
  else if keyFold k "fieldType" then
    (decodeGoString v acc.FieldType).map fun s => { acc with FieldType := s }
  else if keyFold k "keyField" then
    (decodeGoBool v acc.KeyField).map fun b => { acc with KeyField := b }
  else
    .ok acc

/-- Folding the fields of a JSON object into a `SearchJobResultField`. -/
def unmarshalResultFieldFields : SearchJobResultField → List (String × Json) →
    Except GoError SearchJobResultField
  | acc, [] => .ok acc
  | acc, (k, v) :: rest =>
    match resultFieldSetField acc k v with
    | .error e => .error e
    | .ok a => unmarshalResultFieldFields a rest

/-- Decoding one element of `[]SearchJobResultField`: a `null` element has
no effect and leaves the zero value. -/
def decodeResultFieldElem : Json → Except GoError SearchJobResultField
  | .null => .ok resultFieldZero
  | .obj fs => unmarshalResultFieldFields resultFieldZero fs
  | _ => .error (.unmarshalTypeError "cannot unmarshal JSON value into SearchJobResultField")

/-- Decoding a JSON value into a `map[string]interface{}` field: an object
yields its entries as arbitrary JSON values, `null` has no effect. -/
def decodeJsonMap : Json → List (String × Json) → Except GoError (List (String × Json))
  | .obj fs, _ => .ok fs
  | .null, cur => .ok cur
  | _, _ => .error (.unmarshalTypeError "cannot unmarshal JSON value into map")

/-- Setting one decoded JSON object field on a `SearchJobResultMessage`
accumulator (its only tag is `map`). -/
def messageSetField (acc : SearchJobResultMessage) (k : String) (v : Json) :
    Except GoError SearchJobResultMessage :=
  if keyFold k "map" then
    (decodeJsonMap v acc.Map).map fun m => { Map := m }
  else
    .ok acc

/-- Folding the fields of a JSON object into a `SearchJobResultMessage`. -/
def unmarshalMessageFields : SearchJobResultMessage → List (String × Json) →
    Except GoError SearchJobResultMessage
  | acc, [] => .ok acc
  | acc, (k, v) :: rest =>
    match messageSetField acc k v with
    | .error e => .error e
    | .ok a => unmarshalMessageFields a rest

/-- Decoding one element of `[]SearchJobResultMessage`. -/
def decodeMessageElem : Json → Except GoError SearchJobResultMessage
  | .null => .ok { Map := [] }
  | .obj fs => unmarshalMessageFields { Map := [] } fs
  | _ => .error (.unmarshalTypeError "cannot unmarshal JSON value into SearchJobResultMessage")

/-- Decoding the elements of a JSON array into `[]SearchJobResultField`. -/
def decodeResultFieldElems : List Json → Except GoError (List SearchJobResultField)
  | [] => .ok []
  | j :: rest =>
    match decodeResultFieldElem j with
    | .error e => .error e
    | .ok f =>
      match decodeResultFieldElems rest with
      | .error e => .error e
      | .ok l => .ok (f :: l)

/-- Decoding the elements of a JSON array into `[]SearchJobResultMessage`. -/
def decodeMessageElems : List Json → Except GoError (List SearchJobResultMessage)
  | [] => .ok []
  | j :: rest =>
    match decodeMessageElem j with
    | .error e => .error e
    | .ok m =>
      match decodeMessageElems rest with
      | .error e => .error e
      | .ok l => .ok (m :: l)

/-- Setting one decoded JSON object field on a `SearchJobResult`
accumulator. -/
def resultSetField (acc : SearchJobResult) (k : String) (v : Json) :
    Except GoError SearchJobResult :=
  if keyFold k "fields" then
    match v with
    | .arr es => (decodeResultFieldElems es).map fun l => { acc with Fields := l }
    | .null => .ok acc
    | _ => .error (.unmarshalTypeError "cannot unmarshal JSON value into field slice")
  else if keyFold k "messages" then
    match v with
    | .arr es => (decodeMessageElems es).map fun l => { acc with Messages := l }
    | .null => .ok acc
    | _ => .error (.unmarshalTypeError "cannot unmarshal JSON value into message slice")
  else
    .ok acc

/-- Folding the fields of a JSON object into a `SearchJobResult`. -/
def unmarshalResultFields : SearchJobResult → List (String × Json) →
    Except GoError SearchJobResult
  | acc, [] => .ok acc
  | acc, (k, v) :: rest =>
    match resultSetField acc k v with
    | .error e => .error e
    | .ok a => unmarshalResultFields a rest

/-- Model of `json.Unmarshal(responseBody, &searchResult)` where
`searchResult` is a `*SearchJobResult` (double-pointer argument, as in
`GetSearchResults`). -/
def unmarshalResultPtr : Option Json → Except GoError (Option SearchJobResult)
  | none => .error (.jsonSyntaxError "invalid JSON input")
  | some .null => .ok none
  | some (.obj fs) => (unmarshalResultFields { Fields := [], Messages := [] } fs).map some
  | some _ => .error (.unmarshalTypeError "cannot unmarshal JSON value into SearchJobResult")

/-- Model of `json.Marshal(ssr)` for `StartSearchRequest`: a struct of four
strings always marshals successfully (the error branch at the top of
`StartSearch` is unreachable), producing the tagged object. -/
def marshalStartSearchRequest (ssr : StartSearchRequest) : Json :=
  .obj [("query", .str ssr.Query), ("from", .str ssr.From),
        ("to", .str ssr.To), ("timeZone", .str ssr.TimeZone)]

/-- Model of `strconv.Itoa`: the canonical decimal rendering of an integer,
which coincides with Lean's `toString` on `Int`. -/
def strconvItoa (i : Int) : String :=
  toString i

/-- Go's `url.QueryEscape` character classification: ASCII alphanumerics
and `-` `_` `.` `~` are left unescaped. -/
def isUnreservedQueryChar (c : Char) : Bool :=
  c.isAlphanum || c == '-' || c == '_' || c == '.' || c == '~'

/-- Uppercase hexadecimal digit, as `url.QueryEscape` emits. -/
def upperHexChar (n : Nat) : Char :=
  "0123456789ABCDEF".data.getD n '0'

/-- The UTF-8 bytes of a code point (as numbers). -/
def utf8Bytes (n : Nat) : List Nat :=
  if n < 0x80 then [n]
  else if n < 0x800 then [0xC0 + n / 64, 0x80 + n % 64]
  else if n < 0x10000 then [0xE0 + n / 4096, 0x80 + (n / 64) % 64, 0x80 + n % 64]
  else [0xF0 + n / 262144, 0x80 + (n / 4096) % 64, 0x80 + (n / 64) % 64, 0x80 + n % 64]

/-- Percent-encoding of one byte. -/
def percentByte (b : Nat) : List Char :=
  ['%', upperHexChar (b / 16), upperHexChar (b % 16)]

/-- `url.QueryEscape` on one character: unreserved characters stay, space
becomes `+`, everything else is percent-encoded byte-wise. -/
def escQueryChar (c : Char) : List Char :=
  if isUnreservedQueryChar c then [c]
  else if c == ' ' then ['+']
  else (utf8Bytes c.toNat).flatMap percentByte

/-- Model of `url.QueryEscape`. -/
def queryEscape (s : String) : String :=
  ⟨s.data.flatMap escQueryChar⟩

/-- Numeric value of a hexadecimal digit character. -/
def hexVal (c : Char) : Nat :=
  if c.isDigit then c.toNat - 48
  else if 0x61 ≤ c.toNat then c.toNat - 87
  else c.toNat - 55

/-- Model of `url.QueryUnescape` on a character list: `+` becomes a space
and percent-escapes are decoded byte-wise (multi-byte UTF-8 sequences are
not reassembled; no string in the claims contains one). -/
def queryUnescapeChars : List Char → Option (List Char)
  | [] => some []
  | '%' :: a :: b :: rest =>
    if isHexDigitChar a && isHexDigitChar b then
      (queryUnescapeChars rest).map fun r => Char.ofNat (hexVal a * 16 + hexVal b) :: r
    else none
  | '%' :: _ => none
  | '+' :: rest => (queryUnescapeChars rest).map fun r => ' ' :: r
  | c :: rest => (queryUnescapeChars rest).map fun r => c :: r

/-- Splits one `key=value` query segment at its first `=` (a segment with
no `=` is all key). -/
def splitEq : List Char → List Char × List Char
  | [] => ([], [])
  | c :: rest =>
    if c = '=' then ([], rest)
    else
      let kv := splitEq rest
      (c :: kv.1, kv.2)

/-- One parsed query pair, or `none` when the segment is empty or fails to
unescape (`url.Values.Query` drops such segments). -/
def parseQuerySegment (seg : String) : Option (String × String) :=
  if seg = "" then none
  else
    let kv := splitEq seg.data
    match queryUnescapeChars kv.1, queryUnescapeChars kv.2 with
    | some k, some v => some (⟨k⟩, ⟨v⟩)
    | _, _ => none

/-- Model of `req.URL.Query()`: parse the raw query into key/value pairs,
in order (a `url.Values` map, flattened; `Add` appends, `Encode` re-sorts
by key). -/
def parseQuery (s : String) : List (String × String) :=
  if s = "" then []
  else (s.splitOn "&").filterMap parseQuerySegment

/-- Model of `url.Values.Add`: appends the pair. -/
def valuesAdd (q : List (String × String)) (k v : String) : List (String × String) :=
  q ++ [(k, v)]

/-- Lexicographic order on character lists, the order Go's `sort.Strings`
induces on the ASCII keys occurring here. -/
def charListLt : List Char → List Char → Bool
  | [], [] => false
  | [], _ :: _ => true
  | _ :: _, [] => false
  | a :: as, b :: bs =>
    if a.toNat < b.toNat then true
    else if b.toNat < a.toNat then false
    else charListLt as bs

/-- String order used for the query-key sort. -/
def stringLtB (a b : String) : Bool :=
  charListLt a.data b.data

/-- Key-ordered insertion keeping equal keys in insertion order, used to
model the key sort `url.Values.Encode` performs. -/
def insertByKey (p : String × String) : List (String × String) → List (String × String)
  | [] => [p]
  | q :: rest =>
    if stringLtB p.1 q.1 then p :: q :: rest
    else q :: insertByKey p rest

/-- Stable sort of query pairs by key. -/
def sortByKey (q : List (String × String)) : List (String × String) :=
  q.foldr insertByKey []

/-- Model of `url.Values.Encode`: keys sorted, each pair rendered as
`key=value` with both sides query-escaped, joined with `&`. -/
def valuesEncode (q : List (String × String)) : String :=
  String.intercalate "&" ((sortByKey q).map fun p => queryEscape p.1 ++ "=" ++ queryEscape p.2)

/-- Return value of `StartSearch`, which in Go is the triple
`(*SearchJob, []*http.Cookie, error)`; `panicNilDeref` is the run-time
panic of resolving a nil relative URL (the `url.Parse` error on line 61 is
discarded). -/
inductive StartSearchResult where
  | ret (sj : Option SearchJob) (cookies : Option (List Cookie)) (err : Option GoError)
  | panicNilDeref

/-- Return value of `GetSearchJobStatus`, in Go the pair
`(*SearchJobStatusResponse, error)`; `panicNilDeref` is the run-time panic
of resolving a nil relative URL (the `url.Parse` error on line 122 is
discarded). -/
inductive StatusResult where
  | ret (status : Option SearchJobStatusResponse) (err : Option GoError)
  | panicNilDeref

/-- Return value of `GetSearchResults`, in Go the pair
`(*SearchJobResult, error)`.  `GetSearchResults` checks its `url.Parse`
error (line 185), so it has no panic case. -/
inductive ResultsResult where
  | ret (result : Option SearchJobResult) (err : Option GoError)

/-- The request `StartSearch` builds (`search.go` lines 61-66): POST to the
base endpoint resolved against `search/jobs`, JSON content type, Basic
authorization, marshalled body, no cookies.  The `Except` carries the
discarded `url.Parse` error (never hit: the constant string parses). -/
def startSearchRequest (c : Client) (ssr : StartSearchRequest) : Except String Request :=
  (urlParse "search/jobs").map fun rel =>
    { method := "POST", url := resolveReference c.EndpointURL rel,
      headers := [("Content-Type", "application/json"),
                  ("Authorization", "Basic " ++ c.AuthToken)],
      cookies := [], body := some (marshalStartSearchRequest ssr) }

/-- Response handling of `StartSearch` (`search.go` lines 69-99). -/
def handleStartSearchOutcome : DoOutcome → StartSearchResult
  | .fail e => .ret none none (Annotate (some e) "StartSearch request failed")
  | .resp r =>
    match r.bodyRead.readErr with
    | some e => .ret none none (Annotate (some e) "failed to read resp.Body")
    | none =>
      match r.statusCode with
      | 202 =>
        match unmarshalSearchJobPtr r.bodyRead.data with
        | .error e => .ret none none (Annotate (some e) "failed to parse start search response")
        | .ok v => .ret v (some r.cookies) none
      | 401 => .ret none none (some ErrClientAuthenticationError)
      | 400 =>
        match unmarshalSearchJobVal r.bodyRead.data with
        | .error e => .ret none none (Annotate (some e) "failed to parse bad request response")
        | .ok sj =>
          .ret none none
            (Annotatef none ("Start SearchJob BadRequest, " ++ sj.Code ++ ", " ++ sj.Message))
      | sc => .ret none none (Annotatef none ("unexepected http status code " ++ toString sc))

/-- StartSearch calls the Sumologic API Search Endpoint, POST `search/jobs`
(`search.go` lines 56-100).  The network is the `transport` argument, a
function from the built request to the outcome of `client.Do`.  In the 400
and default branches the `err` variable is nil (it was checked after
`ReadAll`), so the `errors.Annotatef(err, ...)` calls there yield nil. -/
def StartSearch (c : Client) (ssr : StartSearchRequest)
    (transport : Request → DoOutcome) : StartSearchResult :=
  match startSearchRequest c ssr with
  | .error _ => .panicNilDeref
  | .ok req => handleStartSearchOutcome (transport req)

/-- The request `GetSearchJobStatus` builds (`search.go` lines 122-129):
GET to the base endpoint resolved against `search/jobs/` + the job ID,
JSON content type, Basic authorization, and every given cookie added with
`AddCookie`.  The `Except` carries the discarded `url.Parse` error. -/
def statusRequest (c : Client) (searchJobID : String) (cookies : List Cookie) :
    Except String Request :=
  (urlParse ("search/jobs/" ++ searchJobID)).map fun rel =>
    cookies.foldl addCookie
      { method := "GET", url := resolveReference c.EndpointURL rel,
        headers := [("Content-Type", "application/json"),
                    ("Authorization", "Basic " ++ c.AuthToken)],
        cookies := [], body := none }

/-- Response handling of `GetSearchJobStatus` (`search.go` lines 132-150):
the `ReadAll` error on line 138 is discarded, and in the non-OK branch the
`err` variable is nil, so `errors.Annotatef(err, ...)` yields nil. -/
def handleStatusOutcome : DoOutcome → StatusResult
  | .fail e => .ret none (Annotate (some e) "GetSearchJobStatus api request failed")
  | .resp r =>
    match r.statusCode with
    | 200 =>
      match unmarshalStatusPtr r.bodyRead.data with
      | .error e => .ret none (Annotate (some e) "GetSearchJobStatus failed to parse response")
      | .ok v => .ret v none
    | sc => .ret none (Annotatef none ("GetSearchJobStatus response status not OK : " ++ toString sc))

/-- GetSearchJobStatus retrieves the status of a running job, GET
`search/jobs/` + ID (`search.go` lines 120-151).  When the job ID makes
`url.Parse` fail, the discarded error leaves `relativeURL` nil and
`ResolveReference` dereferences it: a panic, not an error return. -/
def GetSearchJobStatus (c : Client) (searchJobID : String) (cookies : List Cookie)
    (transport : Request → DoOutcome) : StatusResult :=
  match statusRequest c searchJobID cookies with
  | .error _ => .panicNilDeref
  | .ok req => handleStatusOutcome (transport req)

/-- The request `GetSearchResults` builds (`search.go` lines 184-198): GET
to `search/jobs/` + ID + `/messages` with cookies added, then `offset` and
`limit` appended to the URL's query values and the query re-encoded. -/
def resultsRequest (c : Client) (sjrr : SearchJobResultsRequest) (cookies : List Cookie) :
    Except String Request :=
  (urlParse ("search/jobs/" ++ sjrr.ID ++ "/messages")).map fun rel =>
    let req := cookies.foldl addCookie
      { method := "GET", url := resolveReference c.EndpointURL rel,
        headers := [("Content-Type", "application/json"),
                    ("Authorization", "Basic " ++ c.AuthToken)],
        cookies := [], body := none }
    let q := parseQuery req.url.rawQuery
    let q := valuesAdd q "offset" (strconvItoa sjrr.Offset)
    let q := valuesAdd q "limit" (strconvItoa sjrr.Limit)
    { req with url := { req.url with rawQuery := valuesEncode q } }

/-- Response handling of `GetSearchResults` (`search.go` lines 201-219):
the `ReadAll` error on line 207 is discarded, and in the non-OK branch the
`err` variable is nil, so `errors.Annotatef(err, ...)` yields nil. -/
def handleResultsOutcome : DoOutcome → ResultsResult
  | .fail e => .ret none (Annotate (some e) "GetSearchResults request to get search job messages failed")
  | .resp r =>
    match r.statusCode with
    | 200 =>
      match unmarshalResultPtr r.bodyRead.data with
      | .error e => .ret none (Annotate (some e) "GetSearchResults failed to parse successful response")
      | .ok v => .ret v none
    | sc => .ret none (Annotatef none ("Status not OK : " ++ toString sc))

/-- GetSearchResults will retrieve the messages from a finished search job,
GET `search/jobs/` + ID + `/messages` (`search.go` lines 183-221).  Unlike
`GetSearchJobStatus` it checks the `url.Parse` error and returns it
annotated. -/
def GetSearchResults (c : Client) (sjrr : SearchJobResultsRequest) (cookies : List Cookie)
    (transport : Request → DoOutcome) : ResultsResult :=
  match resultsRequest c sjrr cookies with
  | .error msg =>
    .ret none (Annotatef (some (.urlParseError msg))
      ("failed to create relativeURL from ID : " ++ sjrr.ID))
  | .ok req => handleResultsOutcome (transport req)

/-- Compact constructor for a `Response`, used throughout the theorems. -/
def mkResponse (status : Nat) (body : Option Json) (re : Option GoError)
    (cks : List Cookie) : Response :=
  ⟨status, ⟨body, re⟩, cks⟩

/-- The JSON encoding of a `HistogramBucket` as the server would send it. -/
def encodeHistogramBucket (b : HistogramBucket) : Json :=
  .obj [("length", .num b.Length), ("count", .num b.Count),
        ("startTimeStamp", .num b.StartTimeStamp)]

/-- A 200-OK status body carrying every known field of
`SearchJobStatusResponse` in state `GATHERING RESULTS`, followed by
arbitrary extra fields. -/
def statusBodyC5 (mc rc : Nat) (hb : List HistogramBucket) (pw pe : List String)
    (extras : List (String × Json)) : Json :=
  .obj ([("state", .str GatheringResults),
         ("messageCount", .num (mc : Int)),
         ("histogramBuckets", .arr (hb.map encodeHistogramBucket)),
         ("recordCount", .num (rc : Int)),
         ("pendingWarnings", .arr (pw.map .str)),
         ("pendingErrors", .arr (pe.map .str))] ++ extras)

/-- A job-ID character that is inert for URL parsing: not a control
character and none of `%`, `?`, `#`. -/
def plainIDChar (c : Char) : Bool :=
  !(isCtlChar c) && c != '%' && c != '?' && c != '#'

/-- A job ID made only of inert characters, for which the relative-URL
strings built by the client parse with the whole string as path and an
empty query. -/
def plainJobID (s : String) : Bool :=
  s.data.all plainIDChar

/-- The client value used by the concrete witnesses: an arbitrary base
endpoint and credential. -/
def sampleClient : Client :=
  { EndpointURL := { path := "/api/v1/", rawQuery := "" }, AuthToken := "dG9rZW4=" }

/-- The search request used by the concrete witnesses. -/
def sampleSSR : StartSearchRequest :=
  { Query := "_sourceCategory=test/sumo", From := "2026-10-11T00:00:00Z",
    To := "2026-10-11T00:02:00Z", TimeZone := "PST" }

/-- A sample session cookie as the service would set it. -/
def sampleCookie : Cookie :=
  { name := "JSESSIONID", value := "node0abc" }

/-- Two strings are equal when their character lists are. -/
theorem stringDataEq {a b : String} (h : a.data = b.data) : a = b := by
  cases a; cases b; cases h; rfl

/-- Folding `AddCookie` over a cookie list appends exactly that list to the
request's cookies. -/
theorem foldl_addCookie_cookies (l : List Cookie) (r : Request) :
    (l.foldl addCookie r).cookies = r.cookies ++ l := by
  induction l generalizing r with
  | nil => simp
  | cons c cs ih => simp [List.foldl_cons, addCookie, ih]

/-- `AddCookie` leaves the headers untouched. -/
theorem foldl_addCookie_headers (l : List Cookie) (r : Request) :
    (l.foldl addCookie r).headers = r.headers := by
  induction l generalizing r with
  | nil => rfl
  | cons c cs ih => simp [List.foldl_cons, addCookie, ih]

/-- `AddCookie` leaves the URL untouched. -/
theorem foldl_addCookie_url (l : List Cookie) (r : Request) :
    (l.foldl addCookie r).url = r.url := by
  induction l generalizing r with
  | nil => rfl
  | cons c cs ih => simp [List.foldl_cons, addCookie, ih]

/-- Decoding a `uint` field from a non-negative JSON number recovers the
number. -/
theorem decodeGoUint_natCast (m cur : Nat) :
    decodeGoUint (.num (m : Int)) cur = .ok m := by
  simp only [decodeGoUint]
  rw [if_neg (Int.not_lt.mpr (Int.natCast_nonneg m))]
  rw [Int.toNat_natCast]

/-- Decoding an encoded histogram bucket gives back the bucket (behind a
non-nil pointer). -/
theorem decodeBucketElem_encode (b : HistogramBucket) :
    decodeBucketElem (encodeHistogramBucket b) = .ok (some b) := rfl

/-- Decoding a list of encoded buckets gives back the buckets. -/
theorem decodeBucketElems_map (l : List HistogramBucket) :
    decodeBucketElems (l.map encodeHistogramBucket) = .ok (l.map some) := by
  induction l with
  | nil => rfl
  | cons b rest ih =>
    rw [List.map_cons, decodeBucketElems, decodeBucketElem_encode, ih]
    rfl

/-- Decoding a JSON array of strings gives back the strings. -/
theorem decodeStringElems_map (l : List String) :
    decodeStringElems (l.map Json.str) = .ok l := by
  induction l with
  | nil => rfl
  | cons s rest ih =>
    rw [List.map_cons, decodeStringElems, ih]
    rfl

/-- The `state` field decodes verbatim into `State`. -/
theorem statusSetField_state (acc : SearchJobStatusResponse) (s : String) :
    statusSetField acc "state" (.str s) = .ok { acc with State := s } := rfl

/-- The `messageCount` field decodes verbatim into `MessageCount`. -/
theorem statusSetField_messageCount (acc : SearchJobStatusResponse) (m : Nat) :
    statusSetField acc "messageCount" (.num (m : Int)) = .ok { acc with MessageCount := m } := by
  calc statusSetField acc "messageCount" (.num (m : Int))
      = (decodeGoUint (.num (m : Int)) acc.MessageCount).map
          (fun n => { acc with MessageCount := n }) := rfl
    _ = .ok { acc with MessageCount := m } := by rw [decodeGoUint_natCast]; rfl

/-- The `recordCount` field decodes verbatim into `RecordCount`. -/
theorem statusSetField_recordCount (acc : SearchJobStatusResponse) (m : Nat) :
    statusSetField acc "recordCount" (.num (m : Int)) = .ok { acc with RecordCount := m } := by
  calc statusSetField acc "recordCount" (.num (m : Int))
      = (decodeGoUint (.num (m : Int)) acc.RecordCount).map
          (fun n => { acc with RecordCount := n }) := rfl
    _ = .ok { acc with RecordCount := m } := by rw [decodeGoUint_natCast]; rfl

/-- The `histogramBuckets` field decodes verbatim into `HistgramBuckets`. -/
theorem statusSetField_histogramBuckets (acc : SearchJobStatusResponse)
    (hb : List HistogramBucket) :
    statusSetField acc "histogramBuckets" (.arr (hb.map encodeHistogramBucket))
      = .ok { acc with HistgramBuckets := hb.map some } := by
  calc statusSetField acc "histogramBuckets" (.arr (hb.map encodeHistogramBucket))
      = (decodeBucketElems (hb.map encodeHistogramBucket)).map
          (fun l => { acc with HistgramBuckets := l }) := rfl
    _ = .ok { acc with HistgramBuckets := hb.map some } := by rw [decodeBucketElems_map]; rfl

/-- The `pendingWarnings` field decodes verbatim into `PendingWarnings`. -/
theorem statusSetField_pendingWarnings (acc : SearchJobStatusResponse) (pw : List String) :
    statusSetField acc "pendingWarnings" (.arr (pw.map .str))
      = .ok { acc with PendingWarnings := pw } := by
  calc statusSetField acc "pendingWarnings" (.arr (pw.map .str))
      = (decodeStringElems (pw.map .str)).map
          (fun l => { acc with PendingWarnings := l }) := rfl
    _ = .ok { acc with PendingWarnings := pw } := by rw [decodeStringElems_map]; rfl

/-- The `pendingErrors` field decodes verbatim into `PendingErrors`. -/
theorem statusSetField_pendingErrors (acc : SearchJobStatusResponse) (pe : List String) :
    statusSetField acc "pendingErrors" (.arr (pe.map .str))
      = .ok { acc with PendingErrors := pe } := by
  calc statusSetField acc "pendingErrors" (.arr (pe.map .str))
      = (decodeStringElems (pe.map .str)).map
          (fun l => { acc with PendingErrors := l }) := rfl
    _ = .ok { acc with PendingErrors := pe } := by rw [decodeStringElems_map]; rfl

/-- A JSON object field whose key matches no tag of
`SearchJobStatusResponse` is ignored. -/
theorem statusSetField_unknown (acc : SearchJobStatusResponse) (k : String) (v : Json)
    (h : knownStatusKey k = false) : statusSetField acc k v = .ok acc := by
  unfold knownStatusKey at h
  simp only [Bool.or_eq_false_iff] at h
  obtain ⟨⟨⟨⟨⟨h1, h2⟩, h3⟩, h4⟩, h5⟩, h6⟩ := h
  simp [statusSetField, h1, h2, h3, h4, h5, h6]

/-- A run of fields with only unknown keys leaves the accumulator as is. -/
theorem unmarshalStatusFields_unknown (acc : SearchJobStatusResponse)
    (l : List (String × Json)) (h : ∀ p ∈ l, knownStatusKey p.1 = false) :
    unmarshalStatusFields acc l = .ok acc := by
  induction l generalizing acc with
  | nil => rfl
  | cons p rest ih =>
    obtain ⟨k, v⟩ := p
    rw [unmarshalStatusFields, statusSetField_unknown acc k v (h (k, v) (by simp))]
    exact ih acc (fun q hq => h q (by simp [hq]))

/-- Unmarshalling a JSON object into the status response folds its
fields. -/
theorem unmarshalStatusPtr_obj (l : List (String × Json)) :
    unmarshalStatusPtr (some (.obj l)) = (unmarshalStatusFields statusZero l).map some := rfl

/-- On a 200 response the status handler decodes the body. -/
theorem handleStatus_200 (b : Option Json) (re : Option GoError) (cks : List Cookie) :
    handleStatusOutcome (.resp (mkResponse 200 b re cks)) =
      match unmarshalStatusPtr b with
      | .error e => .ret none (Annotate (some e) "GetSearchJobStatus failed to parse response")
      | .ok v => .ret v none := rfl

/-- The full C5 body decodes to exactly the sent field values, ignoring the
unknown extras. -/
theorem unmarshalStatus_c5body (mc rc : Nat) (hb : List HistogramBucket)
    (pw pe : List String) (extras : List (String × Json))
    (hex : ∀ p ∈ extras, knownStatusKey p.1 = false) :
    unmarshalStatusFields statusZero
      ([("state", .str GatheringResults),
        ("messageCount", .num (mc : Int)),
        ("histogramBuckets", .arr (hb.map encodeHistogramBucket)),
        ("recordCount", .num (rc : Int)),
        ("pendingWarnings", .arr (pw.map .str)),
        ("pendingErrors", .arr (pe.map .str))] ++ extras)
      = .ok ⟨GatheringResults, mc, hb.map some, rc, pw, pe⟩ := by
  simp only [List.cons_append, List.nil_append]
  rw [unmarshalStatusFields, statusSetField_state]
  show unmarshalStatusFields _ _ = _
  rw [unmarshalStatusFields, statusSetField_messageCount]
  show unmarshalStatusFields _ _ = _
  rw [unmarshalStatusFields, statusSetField_histogramBuckets]
  show unmarshalStatusFields _ _ = _
  rw [unmarshalStatusFields, statusSetField_recordCount]
  show unmarshalStatusFields _ _ = _
  rw [unmarshalStatusFields, statusSetField_pendingWarnings]
  show unmarshalStatusFields _ _ = _
  rw [unmarshalStatusFields, statusSetField_pendingErrors]
  show unmarshalStatusFields _ _ = _
  exact unmarshalStatusFields_unknown _ extras hex

/-- `intercalate` on a two-element list is a plain join. -/
theorem intercalate_pair (a b : String) : String.intercalate "&" [a, b] = a ++ "&" ++ b := rfl

/-- Unpacking the conjuncts of `plainIDChar`. -/
theorem plainIDChar_spec (c : Char) (h : plainIDChar c = true) :
    isCtlChar c = false ∧ c ≠ '%' ∧ c ≠ '?' ∧ c ≠ '#' := by
  simp [plainIDChar] at h
  exact ⟨h.1.1.1, h.1.1.2, h.1.2, h.2⟩

/-- A string of inert characters has no fragment to strip. -/
theorem stripFragment_plain (l : List Char) (h : ∀ c ∈ l, plainIDChar c = true) :
    stripFragment l = l := by
  unfold stripFragment
  rw [List.takeWhile_eq_self_iff]
  intro c hc
  simpa using (plainIDChar_spec c (h c hc)).2.2.2

/-- A string of inert characters has only valid (that is, no) escapes. -/
theorem validEscapes_plain (l : List Char) (h : ∀ c ∈ l, plainIDChar c = true) :
    validEscapes l = true := by
  unfold validEscapes
  induction l with
  | nil => rfl
  | cons c rest ih =>
    rw [validEscapesAux]
    rw [if_neg (plainIDChar_spec c (h c (by simp))).2.1]
    exact ih (fun x hx => h x (by simp [hx]))

/-- A string of inert characters has no query to split off. -/
theorem splitQuery_plain (l : List Char) (h : ∀ c ∈ l, plainIDChar c = true) :
    splitQuery l = (l, []) := by
  induction l with
  | nil => rfl
  | cons c rest ih =>
    rw [splitQuery]
    rw [if_neg (plainIDChar_spec c (h c (by simp))).2.2.1]
    rw [ih (fun x hx => h x (by simp [hx]))]

/-- Inert characters are not control characters. -/
theorem any_isCtl_plain (l : List Char) (h : ∀ c ∈ l, plainIDChar c = true) :
    l.any isCtlChar = false := by
  rw [List.any_eq_false]
  intro c hc
  simp [(plainIDChar_spec c (h c hc)).1]

/-- Parsing a string of inert characters succeeds with the whole string as
path and an empty query. -/
theorem urlParse_plain (s : String) (h : ∀ c ∈ s.data, plainIDChar c = true) :
    urlParse s = .ok { path := s, rawQuery := "" } := by
  unfold urlParse
  rw [if_neg (by simp [any_isCtl_plain s.data h])]
  rw [stripFragment_plain s.data h]
  rw [if_neg (by simp [validEscapes_plain s.data h])]
  simp only [splitQuery_plain s.data h]

/-- Reference resolution always takes the reference's query. -/
theorem resolveReference_rawQuery (b r : URL) :
    (resolveReference b r).rawQuery = r.rawQuery := by
  unfold resolveReference
  split <;> rfl

/-- `Nat.digitChar` of a value below ten is a decimal digit. -/
theorem digitChar_isDigit (n : Nat) (h : n < 10) : (Nat.digitChar n).isDigit = true := by
  interval_cases n <;> decide

/-- Every character `Nat.toDigitsCore` emits over base ten is a decimal
digit (given the accumulator already is). -/
theorem toDigitsCore_digits (fuel : Nat) : ∀ (n : Nat) (ds : List Char),
    (∀ c ∈ ds, c.isDigit = true) → ∀ c ∈ Nat.toDigitsCore 10 fuel n ds, c.isDigit = true := by
  induction fuel with
  | zero =>
    intro n ds hds c hc
    exact hds c hc
  | succ f ih =>
    intro n ds hds c hc
    simp only [Nat.toDigitsCore] at hc
    have hcons : ∀ x ∈ Nat.digitChar (n % 10) :: ds, x.isDigit = true := by
      intro x hx
      rcases List.mem_cons.mp hx with h1 | h2
      · rw [h1]; exact digitChar_isDigit _ (Nat.mod_lt _ (by omega))
      · exact hds x h2
    by_cases hz : n / 10 = 0
    · rw [if_pos hz] at hc
      exact hcons c hc
    · rw [if_neg hz] at hc
      exact ih (n / 10) (Nat.digitChar (n % 10) :: ds) hcons c hc

/-- The decimal rendering of a natural number is all digits. -/
theorem natRepr_digits (n : Nat) : ∀ c ∈ (Nat.repr n).data, c.isDigit = true := by
  intro c hc
  have hd : (Nat.repr n).data = Nat.toDigitsCore 10 (n + 1) n [] := rfl
  rw [hd] at hc
  exact toDigitsCore_digits (n + 1) n [] (by intro x hx; cases hx) c hc

/-- Query escaping leaves decimal digits alone. -/
theorem escQueryChar_digit (c : Char) (h : c.isDigit = true) : escQueryChar c = [c] := by
  unfold escQueryChar
  rw [if_pos]
  unfold isUnreservedQueryChar
  simp [Char.isAlphanum, h]

/-- Query escaping is the identity on a list of digits. -/
theorem flatMap_escQueryChar_digits (l : List Char) (h : ∀ c ∈ l, c.isDigit = true) :
    l.flatMap escQueryChar = l := by
  induction l with
  | nil => rfl
  | cons c rest ih =>
    rw [List.flatMap_cons, escQueryChar_digit c (h c (by simp)),
        ih (fun x hx => h x (by simp [hx]))]
    rfl

/-- `url.QueryEscape` is the identity on the decimal rendering of any
integer: `strconv.Itoa` output needs no escaping. -/
theorem queryEscape_itoa (i : Int) : queryEscape (strconvItoa i) = strconvItoa i := by
  cases i with
  | ofNat m =>
    show queryEscape (Nat.repr m) = Nat.repr m
    unfold queryEscape
    rw [flatMap_escQueryChar_digits _ (natRepr_digits m)]
  | negSucc m =>
    show queryEscape ("-" ++ Nat.repr (m + 1)) = "-" ++ Nat.repr (m + 1)
    unfold queryEscape
    apply stringDataEq
    have hdata : ("-" ++ Nat.repr (m + 1)).data = '-' :: (Nat.repr (m + 1)).data := by
      simp
    rw [hdata, List.flatMap_cons]
    rw [show escQueryChar '-' = ['-'] from rfl]
    rw [flatMap_escQueryChar_digits _ (natRepr_digits (m + 1))]
    rfl

/-- Encoding the query values added by `GetSearchResults`: `Encode` sorts
the keys, putting `limit` before `offset`. -/
theorem valuesEncode_offset_limit (x y : String) :
    valuesEncode [("offset", x), ("limit", y)]
      = ("limit" ++ "=" ++ queryEscape y) ++ "&" ++ ("offset" ++ "=" ++ queryEscape x) := by
  show String.intercalate "&"
      [queryEscape "limit" ++ "=" ++ queryEscape y,
       queryEscape "offset" ++ "=" ++ queryEscape x] = _
  rw [intercalate_pair]
  rw [show queryEscape "limit" = "limit" from rfl, show queryEscape "offset" = "offset" from rfl]

/-- Reassociation of the encoded query string. -/
theorem limit_offset_assoc (u v : String) :
    ("limit" ++ "=" ++ u) ++ "&" ++ ("offset" ++ "=" ++ v) = "limit=" ++ u ++ "&offset=" ++ v := by
  rw [show ("limit=" : String) = "limit" ++ "=" from rfl,
      show ("&offset=" : String) = "&" ++ ("offset" ++ "=") from rfl]
  simp only [String.append_assoc]

/-- Every character of the literal `search/jobs/` is inert. -/
theorem searchJobsLit_plain : ∀ x ∈ ("search/jobs/" : String).data, plainIDChar x = true := by
  decide

/-- Every character of the literal `/messages` is inert. -/
theorem messagesLit_plain : ∀ x ∈ ("/messages" : String).data, plainIDChar x = true := by
  decide

/-- A plain job ID makes the whole results path inert. -/
theorem resultsPath_plain (id : String) (h : plainJobID id = true) :
    ∀ x ∈ ("search/jobs/" ++ id ++ "/messages").data, plainIDChar x = true := by
  intro x hx
  rw [String.data_append, String.data_append] at hx
  rcases List.mem_append.mp hx with hx1 | hx2
  · rcases List.mem_append.mp hx1 with hxa | hxb
    · exact searchJobsLit_plain x hxa
    · exact List.all_eq_true.mp h x hxb
  · exact messagesLit_plain x hx2

/-- The request `statusRequest` builds for `sampleClient`, job `job1` and
the sample cookie, written out. -/
def sampleStatusReq : Request :=
  { method := "GET", url := { path := "/api/v1/search/jobs/job1", rawQuery := "" },
    headers := [("Content-Type", "application/json"), ("Authorization", "Basic dG9rZW4=")],
    cookies := [sampleCookie], body := none }

/-- The request `resultsRequest` builds for `sampleClient`, job `job1`,
offset 0, limit 2 and the sample cookie, written out. -/
def sampleResultsReq : Request :=
  { method := "GET",
    url := { path := "/api/v1/search/jobs/job1/messages", rawQuery := "limit=2&offset=0" },
    headers := [("Content-Type", "application/json"), ("Authorization", "Basic dG9rZW4=")],
    cookies := [sampleCookie], body := none }

/-- On a 202 response with a readable body, `StartSearch` decodes the body
and on success returns the job together with the response cookies. -/
theorem handleStart_202 (b : Option Json) (cks : List Cookie) :
    handleStartSearchOutcome (.resp (mkResponse 202 b none cks)) =
      match unmarshalSearchJobPtr b with
      | .error e => .ret none none (Annotate (some e) "failed to parse start search response")
      | .ok v => .ret v (some cks) none := rfl

/-- Claim C1, evaluated at the failing input: when the server answers a
status poll with 404, `GetSearchJobStatus` does not fail with a distinct
job-not-found error — it returns a nil status AND a nil error, because the
default branch passes the nil `err` variable to `errors.Annotatef`, which
by the juju contract returns nil.  The repository's own test
(`TestGetStatusSearchJobDoesntExist`) expects `ErrSearchJobNotFound`
here. -/
theorem getSearchJobStatus_404_no_distinct_error :
    GetSearchJobStatus sampleClient "wrongSearchJobID" []
      (fun _ => .resp (mkResponse 404 none none []))
    = .ret none none := rfl

/-- Claim C2, evaluated at the failing input: on an unhandled non-success
status (500) each of the three operations returns a nil error together
with a nil result, contradicting the claim that a non-nil
request-failed error carrying the status code is returned.  The cause is
the same `errors.Annotatef(err, ...)`-on-nil-`err` slip in every default
branch. -/
theorem non_success_status_yields_nil_error_and_nil_result :
    StartSearch sampleClient sampleSSR (fun _ => .resp (mkResponse 500 none none []))
      = .ret none none none ∧
    GetSearchJobStatus sampleClient "job1" [] (fun _ => .resp (mkResponse 500 none none []))
      = .ret none none ∧
    GetSearchResults sampleClient ⟨"job1", 0, 2⟩ [] (fun _ => .resp (mkResponse 500 none none []))
      = .ret none none :=
  ⟨rfl, rfl, rfl⟩

/-- Claim C3, evaluated at the failing input: on a 400 response whose body
decodes code `X` and message `Y`, `StartSearch` returns no error at all
(and no job): after a successful `json.Unmarshal` the `err` variable is
nil, so the `errors.Annotatef(err, "Start SearchJob BadRequest, ...")`
call building the rejection message returns nil and the code/message are
lost. -/
theorem startSearch_400_yields_nil_error :
    StartSearch sampleClient sampleSSR
      (fun _ => .resp (mkResponse 400
        (some (.obj [("code", .str "X"), ("message", .str "Y")])) none []))
    = .ret none none none := rfl

/-- Claim C4: whenever the status or results request is built, it carries
exactly the handed-in cookie set and the Basic Authorization header, and
each operation consults the transport only at that request. -/
theorem cookies_and_auth_attached (c : Client) (id : String)
    (sjrr : SearchJobResultsRequest) (ck : List Cookie) (reqS reqR : Request)
    (hS : statusRequest c id ck = .ok reqS)
    (hR : resultsRequest c sjrr ck = .ok reqR) :
    reqS.cookies = ck ∧
    ("Authorization", "Basic " ++ c.AuthToken) ∈ reqS.headers ∧
    reqR.cookies = ck ∧
    ("Authorization", "Basic " ++ c.AuthToken) ∈ reqR.headers ∧
    (∀ t, GetSearchJobStatus c id ck t = handleStatusOutcome (t reqS)) ∧
    (∀ t, GetSearchResults c sjrr ck t = handleResultsOutcome (t reqR)) := by
  have hS' := hS
  have hR' := hR
  unfold statusRequest at hS
  unfold resultsRequest at hR
  refine ⟨?_, ?_, ?_, ?_, ?_, ?_⟩
  case _ =>
    cases hu : urlParse ("search/jobs/" ++ id) with
    | error msg => rw [hu] at hS; simp [Except.map] at hS
    | ok rel =>
      rw [hu] at hS
      simp only [Except.map] at hS
      obtain rfl := (Except.ok.inj hS).symm
      rw [foldl_addCookie_cookies]
      rfl
  case _ =>
    cases hu : urlParse ("search/jobs/" ++ id) with
    | error msg => rw [hu] at hS; simp [Except.map] at hS
    | ok rel =>
      rw [hu] at hS
      simp only [Except.map] at hS
      obtain rfl := (Except.ok.inj hS).symm
      rw [foldl_addCookie_headers]
      simp
  case _ =>
    cases hu : urlParse ("search/jobs/" ++ sjrr.ID ++ "/messages") with
    | error msg => rw [hu] at hR; simp [Except.map] at hR
    | ok rel =>
      rw [hu] at hR
      simp only [Except.map] at hR
      obtain rfl := (Except.ok.inj hR).symm
      show (List.foldl addCookie _ ck).cookies = ck
      rw [foldl_addCookie_cookies]
      rfl
  case _ =>
    cases hu : urlParse ("search/jobs/" ++ sjrr.ID ++ "/messages") with
    | error msg => rw [hu] at hR; simp [Except.map] at hR
    | ok rel =>
      rw [hu] at hR
      simp only [Except.map] at hR
      obtain rfl := (Except.ok.inj hR).symm
      show ("Authorization", "Basic " ++ c.AuthToken) ∈ (List.foldl addCookie _ ck).headers
      rw [foldl_addCookie_headers]
      simp
  case _ =>
    intro t
    unfold GetSearchJobStatus
    rw [hS']
  case _ =>
    intro t
    unfold GetSearchResults
    rw [hR']

/-- Claim C4 witness: the concrete requests built for `sampleClient`, job
`job1` and the sample session cookie carry that cookie and the Basic
header. -/
theorem cookies_and_auth_attached_witness :
    statusRequest sampleClient "job1" [sampleCookie] = .ok sampleStatusReq ∧
    resultsRequest sampleClient ⟨"job1", 0, 2⟩ [sampleCookie] = .ok sampleResultsReq ∧
    sampleStatusReq.cookies = [sampleCookie] ∧
    ("Authorization", "Basic " ++ sampleClient.AuthToken) ∈ sampleStatusReq.headers ∧
    sampleResultsReq.cookies = [sampleCookie] ∧
    ("Authorization", "Basic " ++ sampleClient.AuthToken) ∈ sampleResultsReq.headers := by
  have h := cookies_and_auth_attached sampleClient "job1" ⟨"job1", 0, 2⟩ [sampleCookie]
      sampleStatusReq sampleResultsReq rfl rfl
  exact ⟨rfl, rfl, h.1, h.2.1, h.2.2.1, h.2.2.2.1⟩

/-- Claim C5: a 200 status poll whose body is `GATHERING RESULTS` with all
known fields, plus arbitrary unknown extra fields, yields a JobStatus whose
state is exactly the `GatheringResults` constant and whose known fields are
preserved verbatim; the extras are ignored. -/
theorem status_roundtrip_gathering_results (c : Client) (id : String) (ck : List Cookie)
    (req : Request) (mc rc : Nat) (hb : List HistogramBucket) (pw pe : List String)
    (extras : List (String × Json)) (re : Option GoError) (respCookies : List Cookie)
    (hreq : statusRequest c id ck = .ok req)
    (hex : ∀ p ∈ extras, knownStatusKey p.1 = false) :
    GetSearchJobStatus c id ck
      (fun _ => .resp (mkResponse 200 (some (statusBodyC5 mc rc hb pw pe extras)) re respCookies))
    = .ret (some ⟨GatheringResults, mc, hb.map some, rc, pw, pe⟩) none := by
  unfold GetSearchJobStatus
  rw [hreq]
  show handleStatusOutcome _ = _
  unfold statusBodyC5
  rw [handleStatus_200, unmarshalStatusPtr_obj]
  rw [unmarshalStatus_c5body mc rc hb pw pe extras hex]
  rfl

/-- Claim C5 witness: a concrete gathering-results body with counts, one
histogram bucket, one pending warning and one unknown extra field decodes
to exactly those values. -/
theorem status_roundtrip_gathering_results_witness :
    statusRequest sampleClient "job1" [sampleCookie] = .ok sampleStatusReq ∧
    (∀ p ∈ ([("echoQuery", Json.str "x")] : List (String × Json)), knownStatusKey p.1 = false) ∧
    GetSearchJobStatus sampleClient "job1" [sampleCookie]
      (fun _ => .resp (mkResponse 200
        (some (statusBodyC5 5 2 [⟨10, 3, 1359404398000⟩] ["w1"] [] [("echoQuery", .str "x")]))
        none []))
      = .ret (some ⟨GatheringResults, 5, [some ⟨10, 3, 1359404398000⟩], 2, ["w1"], []⟩) none :=
  ⟨rfl, by decide,
    status_roundtrip_gathering_results sampleClient "job1" [sampleCookie] sampleStatusReq
      5 2 [⟨10, 3, 1359404398000⟩] ["w1"] [] [("echoQuery", .str "x")] none [] rfl (by decide)⟩

/-- Claim C6: a 200 status poll whose state string is not one of the five
recognized lifecycle values returns that string verbatim in the JobStatus
(and the remaining fields keep their zero values); the client never coerces
an unrecognized state. -/
theorem unrecognized_state_preserved (c : Client) (id : String) (ck : List Cookie)
    (req : Request) (s : String) (re : Option GoError) (respCookies : List Cookie)
    (hreq : statusRequest c id ck = .ok req)
    (_hs : s ∉ [NotStarted, GatheringResults, ForcePaused, DoneGatheringResults, Canceled]) :
    GetSearchJobStatus c id ck
      (fun _ => .resp (mkResponse 200 (some (.obj [("state", .str s)])) re respCookies))
    = .ret (some ⟨s, 0, [], 0, [], []⟩) none := by
  unfold GetSearchJobStatus
  rw [hreq]
  rfl

/-- Claim C6 witness: the unrecognized state `PROTOCOL DRIFT` is returned
verbatim. -/
theorem unrecognized_state_preserved_witness :
    statusRequest sampleClient "job1" [sampleCookie] = .ok sampleStatusReq ∧
    ("PROTOCOL DRIFT" ∉ [NotStarted, GatheringResults, ForcePaused,
      DoneGatheringResults, Canceled]) ∧
    GetSearchJobStatus sampleClient "job1" [sampleCookie]
      (fun _ => .resp (mkResponse 200 (some (.obj [("state", .str "PROTOCOL DRIFT")])) none []))
      = .ret (some ⟨"PROTOCOL DRIFT", 0, [], 0, [], []⟩) none :=
  ⟨rfl, by decide,
    unrecognized_state_preserved sampleClient "job1" [sampleCookie] sampleStatusReq
      "PROTOCOL DRIFT" none [] rfl (by decide)⟩

/-- Claim C7 counterexample: a 202 response whose body is the well-formed
JSON object with no fields makes `StartSearch` succeed with a `SearchJob`
whose ID is the empty string — the claim that the ID of a successful
submission is always non-empty is false, as no non-emptiness check
exists. -/
theorem startSearch_202_empty_body_gives_empty_id :
    StartSearch sampleClient sampleSSR
      (fun _ => .resp (mkResponse 202 (some (.obj [])) none [sampleCookie]))
      = .ret (some searchJobZero) (some [sampleCookie]) none ∧
    searchJobZero.ID = "" :=
  ⟨rfl, rfl⟩

/-- Claim C7 as amended: on a 202 response whose body decodes, the call
succeeds with whatever job value the body carries (its ID may be empty)
and the captured cookie set equals exactly the cookies of the response's
Set-Cookie headers. -/
theorem startSearch_202_captures_cookies (c : Client) (ssr : StartSearchRequest)
    (r : Response) (v : Option SearchJob)
    (h202 : r.statusCode = 202) (hre : r.bodyRead.readErr = none)
    (hdec : unmarshalSearchJobPtr r.bodyRead.data = .ok v) :
    StartSearch c ssr (fun _ => .resp r) = .ret v (some r.cookies) none := by
  obtain ⟨sc, ⟨bd, re⟩, cks⟩ := r
  dsimp only at h202 hre hdec
  subst h202
  subst hre
  show handleStartSearchOutcome (.resp (mkResponse 202 bd none cks)) = _
  rw [handleStart_202, hdec]

/-- Claim C7 witness: a 202 body carrying id `J42` yields that job and the
response's session cookie. -/
theorem startSearch_202_captures_cookies_witness :
    unmarshalSearchJobPtr (some (.obj [("id", .str "J42")])) = .ok (some ⟨0, "J42", "", ""⟩) ∧
    StartSearch sampleClient sampleSSR
      (fun _ => .resp (mkResponse 202 (some (.obj [("id", .str "J42")])) none [sampleCookie]))
      = .ret (some ⟨0, "J42", "", ""⟩) (some [sampleCookie]) none :=
  ⟨rfl,
    startSearch_202_captures_cookies sampleClient sampleSSR
      (mkResponse 202 (some (.obj [("id", .str "J42")])) none [sampleCookie])
      (some ⟨0, "J42", "", ""⟩) rfl rfl rfl⟩

/-- Claim C8 counterexample: when reading the response body fails but the
bytes read so far happen to be valid JSON, `GetSearchJobStatus` discards
the read error (line 138 assigns it to the blank identifier) and succeeds
with a nil error — contradicting the claim that a body-read failure is
reported as a non-nil error. -/
theorem read_error_swallowed :
    GetSearchJobStatus sampleClient "job1" []
      (fun _ => .resp (mkResponse 200 (some (.obj [("state", .str "X")]))
        (some (.readError "unexpected EOF")) []))
      = .ret (some ⟨"X", 0, [], 0, [], []⟩) none := rfl

/-- Claim C8 as amended: a failure to decode the JSON of an
otherwise-successful (200) response is reported by both
`GetSearchJobStatus` and `GetSearchResults` as a non-nil error wrapping
the parse cause; body-read failures, by contrast, are discarded. -/
theorem decode_failures_reported (c : Client) (id : String) (ck : List Cookie)
    (req : Request) (sjrr : SearchJobResultsRequest) (reqR : Request)
    (re re2 : Option GoError) (cks cks2 : List Cookie)
    (hS : statusRequest c id ck = .ok req)
    (hR : resultsRequest c sjrr ck = .ok reqR) :
    GetSearchJobStatus c id ck (fun _ => .resp (mkResponse 200 none re cks))
      = .ret none (some (.annotated "GetSearchJobStatus failed to parse response"
          (.jsonSyntaxError "invalid JSON input"))) ∧
    GetSearchResults c sjrr ck (fun _ => .resp (mkResponse 200 none re2 cks2))
      = .ret none (some (.annotated "GetSearchResults failed to parse successful response"
          (.jsonSyntaxError "invalid JSON input"))) := by
  constructor
  · unfold GetSearchJobStatus
    rw [hS]
    rfl
  · unfold GetSearchResults
    rw [hR]
    rfl

/-- Claim C8 witness: undecodable 200 bodies produce annotated parse errors
from both calls. -/
theorem decode_failures_reported_witness :
    GetSearchJobStatus sampleClient "job1" [sampleCookie]
      (fun _ => .resp (mkResponse 200 none none []))
      = .ret none (some (.annotated "GetSearchJobStatus failed to parse response"
          (.jsonSyntaxError "invalid JSON input"))) ∧
    GetSearchResults sampleClient ⟨"job1", 0, 2⟩ [sampleCookie]
      (fun _ => .resp (mkResponse 200 none none []))
      = .ret none (some (.annotated "GetSearchResults failed to parse successful response"
          (.jsonSyntaxError "invalid JSON input"))) :=
  decode_failures_reported sampleClient "job1" [sampleCookie] sampleStatusReq
    ⟨"job1", 0, 2⟩ sampleResultsReq none none [] [] rfl rfl

/-- Claim C9: for every integer offset and limit — zero, negative or out of
range — the request `GetSearchResults` builds carries exactly the decimal
renderings of the two integers as the `offset` and `limit` query
parameters (the query is `limit=<L>&offset=<O>` after `Encode`'s key
sort), with no validation, clamping or default substitution. -/
theorem offset_limit_passed_verbatim (c : Client) (sjrr : SearchJobResultsRequest)
    (ck : List Cookie) (h : plainJobID sjrr.ID = true) :
    (resultsRequest c sjrr ck).map (fun r => r.url.rawQuery)
      = .ok ("limit=" ++ strconvItoa sjrr.Limit ++ "&offset=" ++ strconvItoa sjrr.Offset) := by
  unfold resultsRequest
  rw [urlParse_plain _ (resultsPath_plain sjrr.ID h)]
  simp only [Except.map]
  congr 1
  rw [foldl_addCookie_url]
  rw [resolveReference_rawQuery]
  show valuesEncode [("offset", strconvItoa sjrr.Offset), ("limit", strconvItoa sjrr.Limit)] = _
  rw [valuesEncode_offset_limit, queryEscape_itoa, queryEscape_itoa, limit_offset_assoc]

/-- Claim C9 witness: offset -5 and limit 10 pass through verbatim,
untouched by any validation or clamping. -/
theorem offset_limit_passed_verbatim_witness :
    plainJobID "job1" = true ∧
    (resultsRequest sampleClient ⟨"job1", -5, 10⟩ [sampleCookie]).map (fun r => r.url.rawQuery)
      = .ok ("limit=" ++ strconvItoa (10 : Int) ++ "&offset=" ++ strconvItoa (-5 : Int)) :=
  ⟨by decide,
    offset_limit_passed_verbatim sampleClient ⟨"job1", -5, 10⟩ [sampleCookie] (by decide)⟩

/-- Claim C10: for the job ID `job` followed by the ASCII control character
0x01, `GetSearchJobStatus` neither issues any request (the result is the
same for every transport) nor returns an error: the discarded `url.Parse`
error leaves the relative URL nil and `ResolveReference` dereferences it —
a panic. -/
theorem ctl_char_id_panics (c : Client) (ck : List Cookie) (t : Request → DoOutcome) :
    GetSearchJobStatus c "job\x01" ck t = .panicNilDeref := rfl

end Sumologic
